import Mathlib

/-!
Verification of the EduTutor backend's quiz-grading logic and credential
token lifecycle, as a shallow embedding of the Python/Django source.

The first half embeds the Assessment Engine:
`academics/models.py` (`QuizQuestion`, `Quiz`, `StudentQuizAttempt.save`,
`StudentQuizAttempt.calculate_grade`) and
`academics/serializers.py` (`QuizSubmissionSerializer.validate` / `.create`).

The second half embeds the Credential Token Lifecycle:
`core_auth/models.py` (`OTPToken`, `PasswordResetToken`) and
`core_auth/services.py` (`verify_otp`, `change_password`,
`request_password_reset_otp`, `reset_password`), plus the HTTP handler
`ForgotPasswordRequestView.post` from `core_auth/views.py`.

Conventions of the embedding:
* timestamps are integers (minutes); `now` is a field of the state;
* Django `.get(...)` on a non-unique filter is modelled by a three-way
  match on the list of matching rows: `[]` maps to the caught
  `DoesNotExist` branch, `[x]` returns the row, and two or more rows is
  an uncaught `MultipleObjectsReturned` exception, modelled as `none` of
  an outer `Option`; `.get` on a primary key or a column with a unique
  constraint is modelled by `find?`;
* random code generation (`secrets.choice` / `token_urlsafe`) is an
  input supplied by the environment, so the generated code is a
  parameter of the embedded operation;
* the Celery mail dispatch (`.delay`) is fire-and-forget and modelled
  as always accepted, which is the branch where `send_password_reset_otp_email`
  returns `True`.
-/

/-! ## Assessment Engine: data model (`academics/models.py`) -/

/-- Row of the `QuizQuestion` table. `id` is the primary key.
`correct_option` is one of the characters A, B, C, D. -/
structure QuizQuestionRec where
  id : Nat
  question_point : Int
  question_text : String
  correct_option : Char
  deriving DecidableEq, Repr

/-- Row of the `Quiz` table; `questions` holds the ids of the members of
the `questions` many-to-many relation. -/
structure QuizRec where
  id : Nat
  questions : List Nat
  passing_score : Int
  deriving DecidableEq, Repr

/-- Row of the `StudentQuizAttempt` table, as written by
`StudentQuizAttempt.save`: `grade` and `progress_percentage` are the
derived fields. -/
structure StudentQuizAttemptRec where
  id : Nat
  student : Nat
  quiz : Nat
  score : Int
  grade : String
  progress_percentage : ℚ
  deriving DecidableEq, Repr

/-- Database state seen by the Assessment Engine. -/
structure AcadState where
  questions : List QuizQuestionRec
  quizzes : List QuizRec
  attempts : List StudentQuizAttemptRec
  nextAttemptId : Nat
  deriving DecidableEq, Repr

/-- `StudentQuizAttempt.calculate_grade`: the if/elif chain mapping a
percentage to a letter grade, highest breakpoint first. -/
def calculate_grade (percentage : ℚ) : String :=
  if percentage ≥ 97 then "A+"
  else if percentage ≥ 93 then "A"
  else if percentage ≥ 90 then "A-"
  else if percentage ≥ 87 then "B+"
  else if percentage ≥ 83 then "B"
  else if percentage ≥ 80 then "B-"
  else if percentage ≥ 77 then "C+"
  else if percentage ≥ 73 then "C"
  else if percentage ≥ 70 then "C-"
  else if percentage ≥ 67 then "D+"
  else if percentage ≥ 63 then "D"
  else if percentage ≥ 60 then "D-"
  else "F"

/-- `sum(q.question_point for q in self.quiz.questions.all())`: the sum of
the point values of the quiz's full member question set. -/
def quizTotalPoints (st : AcadState) (quiz : QuizRec) : Int :=
  ((st.questions.filter (fun q => quiz.questions.contains q.id)).map
    (fun q => q.question_point)).sum

/-- `StudentQuizAttempt.save`: recomputes `progress_percentage` (guarding
the division when total points is 0) and `grade`, then inserts the row. -/
def saveAttempt (st : AcadState) (student : Nat) (quiz : QuizRec)
    (score : Int) : StudentQuizAttemptRec × AcadState :=
  let total_points := quizTotalPoints st quiz
  let progress_percentage : ℚ :=
    if total_points > 0 then ((score : ℚ) / (total_points : ℚ)) * 100 else 0
  let attempt : StudentQuizAttemptRec :=
    { id := st.nextAttemptId, student := student, quiz := quiz.id,
      score := score, grade := calculate_grade progress_percentage,
      progress_percentage := progress_percentage }
  (attempt,
   { st with attempts := st.attempts ++ [attempt],
             nextAttemptId := st.nextAttemptId + 1 })

/-! ## Assessment Engine: submission grading (`academics/serializers.py`) -/

/-- One element of the `answers` payload of `QuizSubmissionSerializer`. -/
structure AnswerIn where
  question_id : Nat
  selected_option : Char
  deriving DecidableEq, Repr

/-- Validation failures raised by `QuizSubmissionSerializer`
(`serializers.ValidationError`); the invalid-ids variant carries the set
difference reported in the message. -/
inductive SubmissionError where
  | quizDoesNotExist : SubmissionError
  | noAnswers : SubmissionError
  | questionsNotInQuiz : List Nat → SubmissionError
  deriving DecidableEq, Repr

/-- One element of the `results` list built by
`QuizSubmissionSerializer.create`. -/
structure PerQuestionResult where
  question_id : Nat
  question_text : String
  selected_option : Char
  correct_option : Char
  is_correct : Bool
  points_earned : Int
  points_possible : Int
  deriving DecidableEq, Repr

/-- The dictionary returned by `QuizSubmissionSerializer.create`. -/
structure GradeResult where
  quiz_attempt : StudentQuizAttemptRec
  results : List PerQuestionResult
  total_points : Int
  deriving DecidableEq, Repr

/-- `QuizSubmissionSerializer.validate_quiz_id`, `validate_answers` and
`validate`, run in serializer order: the quiz must exist, answers must be
non-empty, and every submitted question id must belong to the quiz.
Returns the quiz on success. -/
def quizSubmissionValidate (st : AcadState) (quiz_id : Nat)
    (answers : List AnswerIn) : Except SubmissionError QuizRec :=
  match st.quizzes.find? (fun q => q.id == quiz_id) with
  | none => .error .quizDoesNotExist
  | some quiz =>
    if answers.isEmpty then .error .noAnswers
    else
      let invalid_ids := ((answers.map (fun a => a.question_id)).dedup).filter
        (fun i => !(quiz.questions.contains i))
      if invalid_ids.isEmpty then .ok quiz
      else .error (.questionsNotInQuiz invalid_ids)

/-- One iteration of the scoring loop of `QuizSubmissionSerializer.create`:
look the question up by primary key; a missing question is skipped
(`except QuizQuestion.DoesNotExist: continue`); otherwise its points are
added to `total_points`, its points are added to `score` when the
selected option matches, and a per-question result is appended.
Accumulator: (score, total_points, results). -/
def scoreStep (st : AcadState) (acc : Int × Int × List PerQuestionResult)
    (a : AnswerIn) : Int × Int × List PerQuestionResult :=
  match st.questions.find? (fun q => q.id == a.question_id) with
  | none => acc
  | some q =>
    let is_correct := q.correct_option == a.selected_option
    (acc.1 + (if is_correct then q.question_point else 0),
     acc.2.1 + q.question_point,
     acc.2.2 ++ [{ question_id := q.id, question_text := q.question_text,
                   selected_option := a.selected_option,
                   correct_option := q.correct_option,
                   is_correct := is_correct,
                   points_earned := if is_correct then q.question_point else 0,
                   points_possible := q.question_point }])

/-- The whole loop, started from `score = 0`, `total_points = 0`,
`results = []`. -/
def scoreLoop (st : AcadState) (answers : List AnswerIn) :
    Int × Int × List PerQuestionResult :=
  answers.foldl (scoreStep st) (0, 0, [])

/-- `QuizSubmissionSerializer.create`: runs the scoring loop, persists
one `StudentQuizAttempt` (whose `save` derives percentage and grade), and
returns the attempt, the per-question results and the accumulated
`total_points`. -/
def quizSubmissionCreate (st : AcadState) (quiz : QuizRec)
    (answers : List AnswerIn) (student : Nat) : GradeResult × AcadState :=
  let r := scoreLoop st answers
  let p := saveAttempt st student quiz r.1
  ({ quiz_attempt := p.1, results := r.2.2, total_points := r.2.1 }, p.2)

/-- The grade operation of the spec: serializer validation followed by
`create`. On a validation error the state is returned unchanged and no
attempt is persisted. -/
def gradeSubmission (st : AcadState) (quiz_id : Nat)
    (answers : List AnswerIn) (student : Nat) :
    Except SubmissionError GradeResult × AcadState :=
  match quizSubmissionValidate st quiz_id answers with
  | .error e => (.error e, st)
  | .ok quiz =>
    let p := quizSubmissionCreate st quiz answers student
    (.ok p.1, p.2)

/-! ## Credential Token Lifecycle: data model (`core_auth/models.py`) -/

/-- `OTPToken.OTPPurpose` text choices. -/
inductive OTPPurposeTag where
  | password_reset : OTPPurposeTag
  | email_verification : OTPPurposeTag
  | change_password : OTPPurposeTag
  deriving DecidableEq, Repr

/-- Row of the `OTPToken` table. `id` is the primary key; `token` is the
short numeric code; timestamps are in minutes. -/
structure OTPTokenRec where
  id : Nat
  user : Nat
  token : String
  purpose : OTPPurposeTag
  is_used : Bool
  created_at : Int
  expires_at : Int
  deriving DecidableEq, Repr

/-- Row of the `PasswordResetToken` table (the long-link alternative to
the OTP flow; `token` has a unique constraint). -/
structure PasswordResetTokenRec where
  id : Nat
  user : Nat
  token : String
  is_used : Bool
  created_at : Int
  expires_at : Int
  deriving DecidableEq, Repr

/-- Row of the `User` table; `email` has a unique constraint, and
`password` stands for the stored credential written by `set_password`. -/
structure UserRec where
  id : Nat
  email : String
  password : String
  deriving DecidableEq, Repr

/-- Database state seen by the token lifecycle services; `now` is the
current time in minutes (`timezone.now()`). -/
structure AuthState where
  users : List UserRec
  otps : List OTPTokenRec
  resetTokens : List PasswordResetTokenRec
  now : Int
  nextId : Nat
  deriving DecidableEq, Repr

/-- `OTPToken.is_expired`: `timezone.now() > self.expires_at`. -/
def OTPTokenRec.is_expired (now : Int) (t : OTPTokenRec) : Bool :=
  now > t.expires_at

/-- `OTPToken.is_valid`: not used and not expired. -/
def OTPTokenRec.is_valid (now : Int) (t : OTPTokenRec) : Bool :=
  !t.is_used && !(t.is_expired now)

/-- `AUTH_FEATURES["OTP_EXPIRY_MINUTES"]` (settings default: 10). -/
def OTP_EXPIRY_MINUTES : Int := 10

/-- Predicate of the query
`OTPToken.objects.get(user=…, token=…, purpose=…, is_used=False)`. -/
def otpUnusedMatch (u : Nat) (otp : String) (purpose : OTPPurposeTag)
    (t : OTPTokenRec) : Bool :=
  t.user == u && t.token == otp && t.purpose == purpose && !t.is_used

/-- Predicate of the same query without the `is_used=False` constraint
(all tokens of the user with this code and purpose). -/
def otpFullMatch (u : Nat) (otp : String) (purpose : OTPPurposeTag)
    (t : OTPTokenRec) : Bool :=
  t.user == u && t.token == otp && t.purpose == purpose

/-- `OTPToken.mark_as_used`: `self.is_used = True; self.save(...)`, a
row update keyed by the primary key. -/
def markOtpUsed (st : AuthState) (tid : Nat) : AuthState :=
  let otps := st.otps.map
    (fun t => if t.id == tid then { t with is_used := true } else t)
  { st with otps := otps }

/-- `OTPToken.create_otp`: bulk-update all unused tokens of the same
(user, purpose) to used, then insert a fresh unused token expiring
`OTP_EXPIRY_MINUTES` from now. The generated numeric code is the `code`
parameter (the source draws it from `secrets`). -/
def create_otp (st : AuthState) (u : Nat) (purpose : OTPPurposeTag)
    (code : String) : OTPTokenRec × AuthState :=
  let invalidated := st.otps.map
    (fun t => if t.user == u && t.purpose == purpose && !t.is_used
              then { t with is_used := true } else t)
  let otp_token : OTPTokenRec :=
    { id := st.nextId, user := u, token := code, purpose := purpose,
      is_used := false, created_at := st.now,
      expires_at := st.now + OTP_EXPIRY_MINUTES }
  (otp_token, { st with otps := invalidated ++ [otp_token],
                        nextId := st.nextId + 1 })

/-- `PasswordResetToken.create_token`: bulk-update all unused reset
tokens of the user to used, then insert a fresh one expiring
`expiry_hours` (default 24) hours from now. The generated opaque code is
the `code` parameter. -/
def create_token (st : AuthState) (u : Nat) (code : String)
    (expiry_hours : Int := 24) : PasswordResetTokenRec × AuthState :=
  let invalidated := st.resetTokens.map
    (fun t => if t.user == u && !t.is_used
              then { t with is_used := true } else t)
  let tok : PasswordResetTokenRec :=
    { id := st.nextId, user := u, token := code, is_used := false,
      created_at := st.now, expires_at := st.now + expiry_hours * 60 }
  (tok, { st with resetTokens := invalidated ++ [tok],
                  nextId := st.nextId + 1 })

/-! ## Credential Token Lifecycle: services (`core_auth/services.py`) -/

/-- `verify_otp(user, otp, purpose, validate_only)`. The `.get` on the
non-unique (user, token, purpose, is_used) filter is a three-way match:
no row is the caught `DoesNotExist` (returns `False`), one row proceeds,
several rows would raise `MultipleObjectsReturned` (outer `none`). -/
def verify_otp (st : AuthState) (u : Nat) (otp : String)
    (purpose : OTPPurposeTag) (validate_only : Bool) :
    Option (Bool × AuthState) :=
  match st.otps.filter (otpUnusedMatch u otp purpose) with
  | [] => some (false, st)
  | [otp_token] =>
    if !(otp_token.is_valid st.now) then some (false, st)
    else if validate_only then some (true, st)
    else some (true, markOtpUsed st otp_token.id)
  | _ => none

/-- Python `str.lower()`, modelled character-wise (the repository's
emails are ASCII). -/
def pyLower (s : String) : String := String.mk (s.data.map Char.toLower)

/-- Rows matching `User.objects.get(email=email.lower())`. -/
def usersWithEmail (st : AuthState) (email : String) : List UserRec :=
  st.users.filter (fun u => u.email == pyLower email)

/-- `get_user_by_email`: `DoesNotExist` is caught and becomes `None`
(inner `none`); the unique constraint on `email` makes the
multiple-rows branch (outer `none`) unreachable in well-formed states. -/
def get_user_by_email (st : AuthState) (email : String) :
    Option (Option UserRec) :=
  match usersWithEmail st email with
  | [] => some none
  | [u] => some (some u)
  | _ => none

/-- `change_password`: `user.set_password(...)`, then a row update keyed
by the primary key (always returns `True` in the source). -/
def change_password (st : AuthState) (uid : Nat) (new_password : String) :
    AuthState :=
  let users := st.users.map
    (fun v => if v.id == uid then { v with password := new_password } else v)
  { st with users := users }

/-- The filter of step 3: does the user have a used password-reset OTP
created within the last 10 minutes
(`is_used=True, created_at__gte=now - 10 minutes`)? -/
def recentUsedResetOtp (st : AuthState) (uid : Nat) : Bool :=
  st.otps.any (fun t =>
    t.user == uid && t.purpose == OTPPurposeTag.password_reset &&
    t.is_used && decide (st.now - 10 ≤ t.created_at))

/-- `reset_password(email, new_password)` (step 3 of the forgot-password
flow): requires a user with the email and a recently created, used
password-reset OTP; then changes the password and bulk-updates every
password-reset OTP of the user to used. -/
def reset_password (st : AuthState) (email : String)
    (new_password : String) : Option (Bool × AuthState) :=
  match get_user_by_email st email with
  | none => none
  | some none => some (false, st)
  | some (some user) =>
    if recentUsedResetOtp st user.id then
      let st1 := change_password st user.id new_password
      let otps := st1.otps.map
        (fun t => if t.user == user.id &&
                     t.purpose == OTPPurposeTag.password_reset
                  then { t with is_used := true } else t)
      some (true, { st1 with otps := otps })
    else some (false, st)

/-- `request_password_reset_otp(email)` (step 1): `False` when the email
is unknown; otherwise issues a password-reset OTP and queues the mail
task. The Celery `.delay` call is modelled as accepted, the branch where
`send_password_reset_otp_email` returns `True`. -/
def request_password_reset_otp (st : AuthState) (email : String)
    (code : String) : Option (Bool × AuthState) :=
  match get_user_by_email st email with
  | none => none
  | some none => some (false, st)
  | some (some user) =>
    let p := create_otp st user.id OTPPurposeTag.password_reset code
    some (true, p.2)

/-- `verify_reset_otp(email, otp)` (step 2): consumes the OTP when valid. -/
def verify_reset_otp (st : AuthState) (email : String) (otp : String) :
    Option (Bool × AuthState) :=
  match get_user_by_email st email with
  | none => none
  | some none => some (false, st)
  | some (some user) =>
    verify_otp st user.id otp OTPPurposeTag.password_reset false

/-- `ForgotPasswordRequestView.post` (`core_auth/views.py`): HTTP status
and message built from the service result; any exception is caught and
also answered with the 500 error body. -/
def forgotPasswordRequestPost (st : AuthState) (email : String)
    (code : String) : (Nat × String) × AuthState :=
  match request_password_reset_otp st email code with
  | some (true, st1) =>
    ((200, "Password reset OTP has been sent to your email."), st1)
  | some (false, st1) =>
    ((500, "Failed to send password reset OTP. Please try again later."), st1)
  | none =>
    ((500, "Failed to send password reset OTP. Please try again later."), st)

/-! ## Specification-side definitions and derived properties

These definitions follow the wording of the specification (breakpoint
table, single-active invariant, "active" token) and are compared with
the source-derived operations above. -/

/-- The breakpoint table of the spec, highest first. -/
def specGradeTable : List (ℚ × String) :=
  [(97, "A+"), (93, "A"), (90, "A-"), (87, "B+"), (83, "B"), (80, "B-"),
   (77, "C+"), (73, "C"), (70, "C-"), (67, "D+"), (63, "D"), (60, "D-")]

/-- Grade mapping as the spec words it: evaluate the table highest-first,
first matching breakpoint wins, else F. -/
def specGradeFromTable (p : ℚ) : String :=
  match specGradeTable.find? (fun br => decide (p ≥ br.1)) with
  | some br => br.2
  | none => "F"

/-- Rank of a letter grade, F lowest, A+ highest; used to state
monotonicity of the grade mapping. -/
def gradeRank (g : String) : Nat :=
  if g = "A+" then 12 else if g = "A" then 11 else if g = "A-" then 10
  else if g = "B+" then 9 else if g = "B" then 8 else if g = "B-" then 7
  else if g = "C+" then 6 else if g = "C" then 5 else if g = "C-" then 4
  else if g = "D+" then 3 else if g = "D" then 2 else if g = "D-" then 1
  else 0

/-- Sum of the point values of the questions the submission actually
resolves: for each answer, the points of the question found by primary
key, 0 when the question does not exist. -/
def submittedTotalPoints (st : AcadState) (answers : List AnswerIn) : Int :=
  (answers.map (fun a =>
    match st.questions.find? (fun q => q.id == a.question_id) with
    | none => 0
    | some q => q.question_point)).sum

/-- The unused OTP tokens of a (user, purpose) pair. -/
def unusedOtps (st : AuthState) (u : Nat) (p : OTPPurposeTag) :
    List OTPTokenRec :=
  st.otps.filter (fun t => t.user == u && t.purpose == p && !t.is_used)

/-- The active (unused and unexpired) OTP tokens of a (user, purpose)
pair. -/
def activeOtps (st : AuthState) (u : Nat) (p : OTPPurposeTag) :
    List OTPTokenRec :=
  st.otps.filter (fun t => t.user == u && t.purpose == p && t.is_valid st.now)

/-- Single-active invariant of the spec: at most one unused OTP token
per (user, purpose). -/
def singleUnusedInv (st : AuthState) : Prop :=
  ∀ u p, (unusedOtps st u p).length ≤ 1

/-- The unused password-reset (long-link) tokens of a user. -/
def unusedResetTokens (st : AuthState) (u : Nat) :
    List PasswordResetTokenRec :=
  st.resetTokens.filter (fun t => t.user == u && !t.is_used)

/-- Single-active invariant for `PasswordResetToken`, scoped per user. -/
def singleUnusedResetInv (st : AuthState) : Prop :=
  ∀ u, (unusedResetTokens st u).length ≤ 1

/-- Primary keys of OTP rows are below the allocator counter (Django's
auto-increment primary key). -/
def otpIdsFresh (st : AuthState) : Prop :=
  ∀ t ∈ st.otps, t.id < st.nextId

/-- A sequence of `issue` operations: each element is (user, purpose,
generated code). -/
def applyIssues (st : AuthState) (ops : List (Nat × OTPPurposeTag × String)) :
    AuthState :=
  ops.foldl (fun s op => (create_otp s op.1 op.2.1 op.2.2).2) st

/-- Two issues in sequence for the same (user, purpose): returns the
first token, the second token, and the final state. -/
def issueTwice (st : AuthState) (u : Nat) (p : OTPPurposeTag)
    (c1 c2 : String) : OTPTokenRec × OTPTokenRec × AuthState :=
  let r1 := create_otp st u p c1
  let r2 := create_otp r1.2 u p c2
  (r1.1, r2.1, r2.2)

/-! ## Concrete scenario states -/

/-- A quiz with two questions: question 1 worth 1 point (correct B) and
question 2 worth 2 points (correct C); quiz 1 contains both. -/
def exampleAcadState : AcadState :=
  { questions := [{ id := 1, question_point := 1, question_text := "q1",
                    correct_option := 'B' },
                  { id := 2, question_point := 2, question_text := "q2",
                    correct_option := 'C' }],
    quizzes := [{ id := 1, questions := [1, 2], passing_score := 70 }],
    attempts := [], nextAttemptId := 0 }

/-- An empty database at minute 0. -/
def emptyAuthState : AuthState :=
  { users := [], otps := [], resetTokens := [], now := 0, nextId := 0 }

/-- One user whose password-reset OTP was created at minute 0 (so it
expires at minute 10); the clock reads minute 9. -/
def resetScenarioState : AuthState :=
  { users := [{ id := 1, email := "alice@example.com", password := "old" }],
    otps := [{ id := 0, user := 1, token := "1234",
               purpose := OTPPurposeTag.password_reset, is_used := false,
               created_at := 0, expires_at := 10 }],
    resetTokens := [], now := 9, nextId := 1 }

/-- `resetScenarioState` after the step-2 verify at minute 9 consumed
the OTP (the token is now marked used). -/
def resetConsumedState : AuthState :=
  { users := [{ id := 1, email := "alice@example.com", password := "old" }],
    otps := [{ id := 0, user := 1, token := "1234",
               purpose := OTPPurposeTag.password_reset, is_used := true,
               created_at := 0, expires_at := 10 }],
    resetTokens := [], now := 9, nextId := 1 }

/-- `resetConsumedState` six minutes later, at minute 15: the OTP was
marked used six minutes ago, inside the claim's 10-minute trust window. -/
def resetLateState : AuthState :=
  { users := [{ id := 1, email := "alice@example.com", password := "old" }],
    otps := [{ id := 0, user := 1, token := "1234",
               purpose := OTPPurposeTag.password_reset, is_used := true,
               created_at := 0, expires_at := 10 }],
    resetTokens := [], now := 15, nextId := 1 }

/-- A used password-reset OTP created one minute ago: the state in which
step 3 is authorized. -/
def resetRecentState : AuthState :=
  { users := [{ id := 1, email := "alice@example.com", password := "old" }],
    otps := [{ id := 0, user := 1, token := "1234",
               purpose := OTPPurposeTag.password_reset, is_used := true,
               created_at := 8, expires_at := 18 }],
    resetTokens := [], now := 9, nextId := 1 }

/-- A single registered account, used to compare the forgot-password
responses for a known and an unknown email. -/
def forgotScenarioState : AuthState :=
  { users := [{ id := 1, email := "alice@example.com", password := "pw" }],
    otps := [], resetTokens := [], now := 0, nextId := 0 }

/-- An unused password-reset OTP that expired at minute 10; the clock
reads minute 15. -/
def expiredOtpState : AuthState :=
  { users := [{ id := 1, email := "alice@example.com", password := "old" }],
    otps := [{ id := 0, user := 1, token := "1234",
               purpose := OTPPurposeTag.password_reset, is_used := false,
               created_at := 0, expires_at := 10 }],
    resetTokens := [], now := 15, nextId := 1 }

/-- The breakpoint cutoffs alone, highest first. -/
def gradeCutoffs : List ℚ := (specGradeTable.map (fun br => br.1))

/-- First-match rank over a descending cutoff list: the head cutoff, if
met, wins with the highest rank; otherwise recurse. `rankList gradeCutoffs`
is the rank of the grade assigned by the breakpoint table. -/
def rankList : List ℚ → ℚ → Nat
  | [], _ => 0
  | c :: cs, p => if p ≥ c then cs.length + 1 else rankList cs p

/-! # Theorems -/

/-! ## Helper lemmas about the grade mapping -/

theorem rankList_le_length (cs : List ℚ) (p : ℚ) : rankList cs p ≤ cs.length := by
  induction cs with
  | nil => simp [rankList]
  | cons c cs ih =>
    simp only [rankList, List.length_cons]
    split_ifs
    · exact le_refl _
    · exact le_trans ih (Nat.le_succ _)

theorem rankList_mono (cs : List ℚ) (p q : ℚ) (h : p ≤ q) :
    rankList cs p ≤ rankList cs q := by
  induction cs with
  | nil => simp [rankList]
  | cons c cs ih =>
    simp only [rankList]
    split_ifs with hp hq
    · exact le_refl _
    · exact absurd (le_trans hp h) hq
    · exact le_trans (rankList_le_length cs p) (Nat.le_succ _)
    · exact ih

theorem gradeRank_calculate_grade (p : ℚ) :
    gradeRank (calculate_grade p) = rankList gradeCutoffs p := by
  simp only [calculate_grade, gradeCutoffs, specGradeTable, List.map_cons,
    List.map_nil, rankList, List.length_cons, List.length_nil]
  by_cases h1 : p ≥ 97
  · simp only [if_pos h1]; decide
  simp only [if_neg h1]
  by_cases h2 : p ≥ 93
  · simp only [if_pos h2]; decide
  simp only [if_neg h2]
  by_cases h3 : p ≥ 90
  · simp only [if_pos h3]; decide
  simp only [if_neg h3]
  by_cases h4 : p ≥ 87
  · simp only [if_pos h4]; decide
  simp only [if_neg h4]
  by_cases h5 : p ≥ 83
  · simp only [if_pos h5]; decide
  simp only [if_neg h5]
  by_cases h6 : p ≥ 80
  · simp only [if_pos h6]; decide
  simp only [if_neg h6]
  by_cases h7 : p ≥ 77
  · simp only [if_pos h7]; decide
  simp only [if_neg h7]
  by_cases h8 : p ≥ 73
  · simp only [if_pos h8]; decide
  simp only [if_neg h8]
  by_cases h9 : p ≥ 70
  · simp only [if_pos h9]; decide
  simp only [if_neg h9]
  by_cases h10 : p ≥ 67
  · simp only [if_pos h10]; decide
  simp only [if_neg h10]
  by_cases h11 : p ≥ 63
  · simp only [if_pos h11]; decide
  simp only [if_neg h11]
  by_cases h12 : p ≥ 60
  · simp only [if_pos h12]; decide
  simp only [if_neg h12]
  decide

theorem calculate_grade_eq_table (p : ℚ) :
    calculate_grade p = specGradeFromTable p := by
  simp only [calculate_grade, specGradeFromTable, specGradeTable, List.find?]
  by_cases h1 : p ≥ 97
  · simp only [if_pos h1, decide_eq_true h1]
  simp only [if_neg h1, decide_eq_false h1]
  by_cases h2 : p ≥ 93
  · simp only [if_pos h2, decide_eq_true h2]
  simp only [if_neg h2, decide_eq_false h2]
  by_cases h3 : p ≥ 90
  · simp only [if_pos h3, decide_eq_true h3]
  simp only [if_neg h3, decide_eq_false h3]
  by_cases h4 : p ≥ 87
  · simp only [if_pos h4, decide_eq_true h4]
  simp only [if_neg h4, decide_eq_false h4]
  by_cases h5 : p ≥ 83
  · simp only [if_pos h5, decide_eq_true h5]
  simp only [if_neg h5, decide_eq_false h5]
  by_cases h6 : p ≥ 80
  · simp only [if_pos h6, decide_eq_true h6]
  simp only [if_neg h6, decide_eq_false h6]
  by_cases h7 : p ≥ 77
  · simp only [if_pos h7, decide_eq_true h7]
  simp only [if_neg h7, decide_eq_false h7]
  by_cases h8 : p ≥ 73
  · simp only [if_pos h8, decide_eq_true h8]
  simp only [if_neg h8, decide_eq_false h8]
  by_cases h9 : p ≥ 70
  · simp only [if_pos h9, decide_eq_true h9]
  simp only [if_neg h9, decide_eq_false h9]
  by_cases h10 : p ≥ 67
  · simp only [if_pos h10, decide_eq_true h10]
  simp only [if_neg h10, decide_eq_false h10]
  by_cases h11 : p ≥ 63
  · simp only [if_pos h11, decide_eq_true h11]
  simp only [if_neg h11, decide_eq_false h11]
  by_cases h12 : p ≥ 60
  · simp only [if_pos h12, decide_eq_true h12]
  simp only [if_neg h12, decide_eq_false h12]

/-- Claim C4: the grade mapping is total (it agrees everywhere with the
first-match evaluation of the spec's breakpoint table, so every
percentage gets exactly one grade) and monotone in the percentage, and
in particular 96.999 maps to A, 97.0 to A+, and 59.999 to F. -/
theorem grade_mapping_total_and_monotone :
    (∀ p : ℚ, calculate_grade p = specGradeFromTable p) ∧
    (∀ p q : ℚ, p ≤ q →
      gradeRank (calculate_grade p) ≤ gradeRank (calculate_grade q)) ∧
    calculate_grade (96999 / 1000) = "A" ∧
    calculate_grade 97 = "A+" ∧
    calculate_grade (59999 / 1000) = "F" := by
  refine ⟨calculate_grade_eq_table, ?_, ?_, ?_, ?_⟩
  · intro p q hpq
    rw [gradeRank_calculate_grade, gradeRank_calculate_grade]
    exact rankList_mono _ p q hpq
  · unfold calculate_grade; norm_num
  · unfold calculate_grade; norm_num
  · unfold calculate_grade; norm_num

/-- Witness for C4: instantiating the monotonicity component at the
concrete percentages 50 and 80. -/
theorem grade_mapping_total_and_monotone_witness :
    gradeRank (calculate_grade 50) ≤ gradeRank (calculate_grade 80) :=
  grade_mapping_total_and_monotone.2.1 50 80 (by norm_num)

/-! ## Assessment Engine theorems -/

/-- Claim C9: when the quiz's full question set sums to 0 points, the
persisted attempt always has percentage 0, whatever the score (the
division is guarded), and the attempt is still appended to the table. -/
theorem zero_total_points_zero_percentage (st : AcadState) (student : Nat)
    (quiz : QuizRec) (score : Int) (h : quizTotalPoints st quiz = 0) :
    (saveAttempt st student quiz score).1.progress_percentage = 0 ∧
    (saveAttempt st student quiz score).2.attempts
      = st.attempts ++ [(saveAttempt st student quiz score).1] := by
  constructor <;> simp [saveAttempt, h]

/-- Witness for C9: a quiz with an empty question set, scored 5. -/
theorem zero_total_points_zero_percentage_witness :
    quizTotalPoints exampleAcadState ⟨2, [], 50⟩ = 0 ∧
    (saveAttempt exampleAcadState 7 ⟨2, [], 50⟩ 5).1.progress_percentage = 0 :=
  ⟨by decide,
   (zero_total_points_zero_percentage exampleAcadState 7 ⟨2, [], 50⟩ 5
     (by decide)).1⟩

/-- Claim C3: a submission containing a question id outside the quiz's
question set is rejected by validation with the
question-not-in-quiz error before any scoring, and the state — in
particular the attempts table — is returned unchanged. -/
theorem invalid_question_rejects_submission (st : AcadState) (quiz_id : Nat)
    (answers : List AnswerIn) (student : Nat) (quiz : QuizRec)
    (hq : st.quizzes.find? (fun q => q.id == quiz_id) = some quiz)
    (hbad : ∃ a ∈ answers, ¬ quiz.questions.contains a.question_id) :
    ∃ ids, ids ≠ [] ∧
      gradeSubmission st quiz_id answers student
        = (Except.error (SubmissionError.questionsNotInQuiz ids), st) := by
  obtain ⟨a, ha, hnotin⟩ := hbad
  have hne : answers ≠ [] := by
    intro hcon
    subst hcon
    cases ha
  have hempty : answers.isEmpty = false := by
    cases answers with
    | nil => exact absurd rfl hne
    | cons x xs => rfl
  refine ⟨((answers.map (fun a => a.question_id)).dedup).filter
      (fun i => !(quiz.questions.contains i)), ?_, ?_⟩
  · intro hcon
    have hmem : a.question_id ∈ ((answers.map (fun a => a.question_id)).dedup).filter
        (fun i => !(quiz.questions.contains i)) := by
      refine List.mem_filter.2 ⟨List.mem_dedup.2 (List.mem_map.2 ⟨a, ha, rfl⟩), ?_⟩
      simpa using hnotin
    rw [hcon] at hmem
    cases hmem
  · unfold gradeSubmission quizSubmissionValidate
    rw [hq]
    simp only [hempty, Bool.false_eq_true, if_false]
    have hids : (((answers.map (fun a => a.question_id)).dedup).filter
        (fun i => !(quiz.questions.contains i))).isEmpty = false := by
      have hmem : a.question_id ∈ ((answers.map (fun a => a.question_id)).dedup).filter
          (fun i => !(quiz.questions.contains i)) := by
        refine List.mem_filter.2 ⟨List.mem_dedup.2 (List.mem_map.2 ⟨a, ha, rfl⟩), ?_⟩
        simpa using hnotin
      cases hcase : ((answers.map (fun a => a.question_id)).dedup).filter
          (fun i => !(quiz.questions.contains i)) with
      | nil => rw [hcase] at hmem; cases hmem
      | cons y ys => rfl
    simp only [hids, Bool.false_eq_true, if_false]

/-- Witness for C3: submitting question 9 (not a member of quiz 1)
alongside question 1 rejects the whole submission and leaves the state
untouched. -/
theorem invalid_question_rejects_submission_witness :
    ∃ ids, ids ≠ [] ∧
      gradeSubmission exampleAcadState 1 [⟨1, 'B'⟩, ⟨9, 'C'⟩] 42
        = (Except.error (SubmissionError.questionsNotInQuiz ids),
           exampleAcadState) :=
  invalid_question_rejects_submission exampleAcadState 1
    [⟨1, 'B'⟩, ⟨9, 'C'⟩] 42 ⟨1, [1, 2], 70⟩ (by decide)
    ⟨⟨9, 'C'⟩, by decide, by decide⟩

/-- Counterexample to C2 as stated: quiz 1 has questions worth 1 and 2
points (full-set sum 3), but grading a submission answering only
question 1 returns total_points = 1, the sum over the submitted subset,
not the full-question-set sum 3. -/
theorem subset_total_points_counterexample :
    ((gradeSubmission exampleAcadState 1 [⟨1, 'B'⟩] 42).1.toOption.map
        (fun r => r.total_points)) = some 1 ∧
    quizTotalPoints exampleAcadState ⟨1, [1, 2], 70⟩ = 3 := by
  constructor <;> decide

theorem scoreLoop_total_aux (st : AcadState) (answers : List AnswerIn) :
    ∀ acc : Int × Int × List PerQuestionResult,
      (answers.foldl (scoreStep st) acc).2.1
        = acc.2.1 + submittedTotalPoints st answers := by
  induction answers with
  | nil =>
    intro acc
    simp [submittedTotalPoints]
  | cons a as ih =>
    intro acc
    simp only [List.foldl_cons, submittedTotalPoints, List.map_cons,
      List.sum_cons]
    rw [ih]
    unfold scoreStep
    cases hfind : st.questions.find? (fun q => q.id == a.question_id) with
    | none => simp [submittedTotalPoints]
    | some q => simp [submittedTotalPoints]; ring

/-- Claim C2, amended: for every valid submission, grading succeeds and
the returned total_points is the sum of the point values of the
questions the submitted answers resolve (not the quiz's full question
set), and the attempt is persisted alongside it. -/
theorem submission_total_points (st : AcadState) (quiz_id : Nat)
    (answers : List AnswerIn) (student : Nat) (quiz : QuizRec)
    (hv : quizSubmissionValidate st quiz_id answers = .ok quiz) :
    ∃ r st2, gradeSubmission st quiz_id answers student = (.ok r, st2) ∧
      r.total_points = submittedTotalPoints st answers ∧
      st2.attempts = st.attempts ++ [r.quiz_attempt] := by
  refine ⟨(quizSubmissionCreate st quiz answers student).1,
          (quizSubmissionCreate st quiz answers student).2, ?_, ?_, ?_⟩
  · unfold gradeSubmission
    rw [hv]
  · show (scoreLoop st answers).2.1 = _
    unfold scoreLoop
    rw [scoreLoop_total_aux]
    simp
  · show (saveAttempt st student quiz (scoreLoop st answers).1).2.attempts = _
    simp [saveAttempt, quizSubmissionCreate]

/-- Witness for C2 (amended): the subset submission answering only
question 1 of quiz 1. -/
theorem submission_total_points_witness :
    ∃ r st2, gradeSubmission exampleAcadState 1 [⟨1, 'B'⟩] 42 = (.ok r, st2) ∧
      r.total_points = submittedTotalPoints exampleAcadState [⟨1, 'B'⟩] ∧
      st2.attempts = exampleAcadState.attempts ++ [r.quiz_attempt] :=
  submission_total_points exampleAcadState 1 [⟨1, 'B'⟩] 42 ⟨1, [1, 2], 70⟩
    (by rfl)

/-! ## Token lifecycle helper lemmas -/

theorem filter_map_none {α : Type} (f : α → α) (q : α → Bool) (l : List α)
    (h : ∀ a, q (f a) = false) :
    (l.map f).filter q = [] := by
  induction l with
  | nil => rfl
  | cons a l ih =>
    simp [List.map_cons, List.filter_cons, h a, ih]

theorem filter_map_fixed {α : Type} (f : α → α) (q : α → Bool) (l : List α)
    (h : ∀ a, q (f a) = q a ∧ (q a = true → f a = a)) :
    (l.map f).filter q = l.filter q := by
  induction l with
  | nil => rfl
  | cons a l ih =>
    simp only [List.map_cons, List.filter_cons, (h a).1, ih]
    cases hq : q a with
    | true => rw [(h a).2 hq]
    | false => rfl

theorem invalidate_kills_unused (l : List OTPTokenRec) (u : Nat)
    (p : OTPPurposeTag) :
    (l.map (fun t => if t.user == u && t.purpose == p && !t.is_used
                     then { t with is_used := true } else t)).filter
      (fun t => t.user == u && t.purpose == p && !t.is_used) = [] := by
  apply filter_map_none
  intro a
  cases h : (a.user == u && a.purpose == p && !a.is_used) with
  | true => simp [h]
  | false => simp [h]

theorem unusedOtps_create_self (st : AuthState) (u : Nat) (p : OTPPurposeTag)
    (c : String) :
    unusedOtps (create_otp st u p c).2 u p = [(create_otp st u p c).1] := by
  simp only [unusedOtps, create_otp, List.filter_append,
    invalidate_kills_unused]
  simp

theorem unusedOtps_create_other (st : AuthState) (u : Nat) (p : OTPPurposeTag)
    (c : String) (u2 : Nat) (p2 : OTPPurposeTag)
    (h : u2 ≠ u ∨ p2 ≠ p) :
    unusedOtps (create_otp st u p c).2 u2 p2 = unusedOtps st u2 p2 := by
  simp only [unusedOtps, create_otp, List.filter_append]
  have h1 : (List.filter (fun t : OTPTokenRec => t.user == u2 && t.purpose == p2 && !t.is_used)
      [{ id := st.nextId, user := u, token := c, purpose := p,
         is_used := false, created_at := st.now,
         expires_at := st.now + OTP_EXPIRY_MINUTES }]) = [] := by
    rcases h with h | h <;> simp [h, Ne.symm h]
  have h2 : (List.filter (fun t : OTPTokenRec => t.user == u2 && t.purpose == p2 && !t.is_used)
      (st.otps.map (fun t =>
        if t.user == u && t.purpose == p && !t.is_used
        then { t with is_used := true } else t)))
      = st.otps.filter (fun t => t.user == u2 && t.purpose == p2 && !t.is_used) := by
    apply filter_map_fixed
    intro a
    constructor
    · cases hc : (a.user == u && a.purpose == p && !a.is_used) with
      | true =>
        simp only [hc, if_true]
        simp at hc
        obtain ⟨⟨hcu, hcp⟩, hcused⟩ := hc
        rcases h with h | h <;> simp [hcu, hcp, hcused, Ne.symm h]
      | false => simp [hc]
    · intro hq
      cases hc : (a.user == u && a.purpose == p && !a.is_used) with
      | true =>
        exfalso
        simp at hc hq
        obtain ⟨⟨hcu, hcp⟩, hcused⟩ := hc
        obtain ⟨⟨hqu, hqp⟩, hqused⟩ := hq
        rcases h with h | h
        · exact h (by rw [← hqu, hcu])
        · exact h (by rw [← hqp, hcp])
      | false => simp [hc]
  rw [h1, h2]
  simp

theorem create_otp_preserves_inv (st : AuthState) (u : Nat) (p : OTPPurposeTag)
    (c : String) (hinv : singleUnusedInv st) :
    singleUnusedInv (create_otp st u p c).2 := by
  intro u2 p2
  by_cases hu : u2 = u
  · by_cases hp : p2 = p
    · subst hu; subst hp
      rw [unusedOtps_create_self]
      simp
    · rw [unusedOtps_create_other st u p c u2 p2 (Or.inr hp)]
      exact hinv u2 p2
  · rw [unusedOtps_create_other st u p c u2 p2 (Or.inl hu)]
    exact hinv u2 p2

theorem applyIssues_preserves_inv (ops : List (Nat × OTPPurposeTag × String)) :
    ∀ st : AuthState, singleUnusedInv st → singleUnusedInv (applyIssues st ops) := by
  induction ops with
  | nil => intro st hinv; exact hinv
  | cons op ops ih =>
    intro st hinv
    exact ih _ (create_otp_preserves_inv st op.1 op.2.1 op.2.2 hinv)

theorem activeOtps_eq_filter_unused (st : AuthState) (u : Nat)
    (p : OTPPurposeTag) :
    activeOtps st u p
      = (unusedOtps st u p).filter (fun t => !(t.is_expired st.now)) := by
  unfold activeOtps unusedOtps
  rw [List.filter_filter]
  apply List.filter_congr
  intro x _
  have hb : ∀ (b1 b2 b3 b4 : Bool),
      (b1 && b2 && (!b3 && !b4)) = (!b4 && (b1 && b2 && !b3)) := by decide
  simpa [OTPTokenRec.is_valid] using
    hb (x.user == u) (x.purpose == p) x.is_used (x.is_expired st.now)

theorem issueTwice_one_active (st : AuthState) (u : Nat) (p : OTPPurposeTag)
    (c1 c2 : String) :
    activeOtps (issueTwice st u p c1 c2).2.2 u p
      = [(issueTwice st u p c1 c2).2.1] := by
  unfold issueTwice
  rw [activeOtps_eq_filter_unused, unusedOtps_create_self]
  simp [create_otp, OTPTokenRec.is_expired, OTP_EXPIRY_MINUTES]

theorem invalidate_id (u : Nat) (p : OTPPurposeTag) (b : OTPTokenRec) :
    ((if b.user == u && b.purpose == p && !b.is_used
      then { b with is_used := true } else b) : OTPTokenRec).id = b.id := by
  by_cases hc : (b.user == u && b.purpose == p && !b.is_used) = true <;> simp [hc]

theorem create_otp_mem (st : AuthState) (u : Nat) (p : OTPPurposeTag)
    (c : String) (t : OTPTokenRec) (ht : t ∈ (create_otp st u p c).2.otps) :
    (∃ b ∈ st.otps,
       t = (if b.user == u && b.purpose == p && !b.is_used
            then { b with is_used := true } else b)) ∨
    t = (create_otp st u p c).1 := by
  simp only [create_otp, List.mem_append, List.mem_map,
    List.mem_singleton] at ht
  rcases ht with ⟨b, hb, rfl⟩ | rfl
  · exact Or.inl ⟨b, hb, rfl⟩
  · exact Or.inr rfl

theorem issueTwice_first_used (st : AuthState) (u : Nat) (p : OTPPurposeTag)
    (c1 c2 : String) (hfresh : otpIdsFresh st) :
    ∀ t ∈ (issueTwice st u p c1 c2).2.2.otps,
      t.id = (issueTwice st u p c1 c2).1.id → t.is_used = true := by
  intro t ht hid
  have hid1 : (issueTwice st u p c1 c2).1.id = st.nextId := rfl
  rw [hid1] at hid
  have ht2 : t ∈ (create_otp (create_otp st u p c1).2 u p c2).2.otps := ht
  rcases create_otp_mem _ u p c2 t ht2 with ⟨b2, hb2, rfl⟩ | rfl
  · rcases create_otp_mem st u p c1 b2 hb2 with ⟨b, hb, rfl⟩ | rfl
    · exfalso
      have hidb : b.id < st.nextId := hfresh b hb
      rw [invalidate_id, invalidate_id] at hid
      omega
    · by_cases hc : ((create_otp st u p c1).1.user == u &&
          (create_otp st u p c1).1.purpose == p &&
          !(create_otp st u p c1).1.is_used) = true
      · simp only [hc, if_true]
      · exfalso
        apply hc
        simp [create_otp]
  · exfalso
    have : (create_otp (create_otp st u p c1).2 u p c2).1.id
        = st.nextId + 1 := rfl
    omega

theorem invalidate_reset_kills_unused (l : List PasswordResetTokenRec)
    (u : Nat) :
    (l.map (fun t => if t.user == u && !t.is_used
                     then { t with is_used := true } else t)).filter
      (fun t => t.user == u && !t.is_used) = [] := by
  apply filter_map_none
  intro a
  cases h : (a.user == u && !a.is_used) with
  | true => simp [h]
  | false => simp [h]

theorem unusedResetTokens_create_self (st : AuthState) (u : Nat)
    (c : String) :
    unusedResetTokens (create_token st u c).2 u = [(create_token st u c).1] := by
  simp only [unusedResetTokens, create_token, List.filter_append,
    invalidate_reset_kills_unused]
  simp

theorem unusedResetTokens_create_other (st : AuthState) (u : Nat)
    (c : String) (u2 : Nat) (h : u2 ≠ u) :
    unusedResetTokens (create_token st u c).2 u2
      = unusedResetTokens st u2 := by
  simp only [unusedResetTokens, create_token, List.filter_append]
  have h1 : (List.filter (fun t : PasswordResetTokenRec => t.user == u2 && !t.is_used)
      [{ id := st.nextId, user := u, token := c, is_used := false,
         created_at := st.now, expires_at := st.now + 24 * 60 }]) = [] := by
    simp [h, Ne.symm h]
  have h2 : (List.filter (fun t : PasswordResetTokenRec => t.user == u2 && !t.is_used)
      (st.resetTokens.map (fun t =>
        if t.user == u && !t.is_used then { t with is_used := true } else t)))
      = st.resetTokens.filter (fun t => t.user == u2 && !t.is_used) := by
    apply filter_map_fixed
    intro a
    constructor
    · cases hc : (a.user == u && !a.is_used) with
      | true =>
        simp only [hc, if_true]
        simp at hc
        simp [hc.1, hc.2, Ne.symm h]
      | false => simp [hc]
    · intro hq
      cases hc : (a.user == u && !a.is_used) with
      | true =>
        exfalso
        simp at hc hq
        exact h (by rw [← hq.1, hc.1])
      | false => simp [hc]
  rw [h1, h2]
  simp

theorem create_token_preserves_inv (st : AuthState) (u : Nat) (c : String)
    (hrinv : singleUnusedResetInv st) :
    singleUnusedResetInv (create_token st u c).2 := by
  intro u2
  by_cases hu : u2 = u
  · subst hu
    rw [unusedResetTokens_create_self]
    simp
  · rw [unusedResetTokens_create_other st u c u2 hu]
    exact hrinv u2

/-- Claim C5: issuing a new OTP invalidates all unused tokens of the
(user, purpose) pair and creates one fresh unused token, so the
at-most-one-unused invariant is preserved by any sequence of issues;
issuing twice in a row leaves exactly one active (unused, unexpired)
token — the second one — and the first token ends up used; and
`PasswordResetToken.create_token` preserves the same invariant scoped
per user. -/
theorem issue_single_active_invariant (st : AuthState)
    (hinv : singleUnusedInv st) (hrinv : singleUnusedResetInv st)
    (hfresh : otpIdsFresh st) :
    (∀ ops, singleUnusedInv (applyIssues st ops)) ∧
    (∀ u p c1 c2,
      activeOtps (issueTwice st u p c1 c2).2.2 u p
        = [(issueTwice st u p c1 c2).2.1] ∧
      (∀ t ∈ (issueTwice st u p c1 c2).2.2.otps,
        t.id = (issueTwice st u p c1 c2).1.id → t.is_used = true)) ∧
    (∀ u c, singleUnusedResetInv (create_token st u c).2) := by
  refine ⟨?_, ?_, ?_⟩
  · intro ops
    exact applyIssues_preserves_inv ops st hinv
  · intro u p c1 c2
    exact ⟨issueTwice_one_active st u p c1 c2,
           issueTwice_first_used st u p c1 c2 hfresh⟩
  · intro u c
    exact create_token_preserves_inv st u c hrinv

/-- Witness for C5: two password-reset issues for user 1 starting from
the empty database. -/
theorem issue_single_active_invariant_witness :
    singleUnusedInv (applyIssues emptyAuthState
      [(1, OTPPurposeTag.password_reset, "1111"),
       (1, OTPPurposeTag.password_reset, "2222")]) ∧
    activeOtps (issueTwice emptyAuthState 1 OTPPurposeTag.password_reset
        "1111" "2222").2.2 1 OTPPurposeTag.password_reset
      = [(issueTwice emptyAuthState 1 OTPPurposeTag.password_reset
          "1111" "2222").2.1] :=
  ⟨(issue_single_active_invariant emptyAuthState
      (fun u p => by simp [unusedOtps, emptyAuthState])
      (fun u => by simp [unusedResetTokens, emptyAuthState])
      (by intro t ht; simp [emptyAuthState] at ht)).1 _,
   ((issue_single_active_invariant emptyAuthState
      (fun u p => by simp [unusedOtps, emptyAuthState])
      (fun u => by simp [unusedResetTokens, emptyAuthState])
      (by intro t ht; simp [emptyAuthState] at ht)).2.1 1
        OTPPurposeTag.password_reset "1111" "2222").1⟩

theorem filter_mark (l : List OTPTokenRec) (i u : Nat) (code : String)
    (p : OTPPurposeTag) :
    (l.map (fun t => if t.id == i then { t with is_used := true } else t)).filter
        (otpUnusedMatch u code p)
      = l.filter (fun t => !(t.id == i) && otpUnusedMatch u code p t) := by
  induction l with
  | nil => rfl
  | cons a l ih =>
    simp only [List.map_cons, List.filter_cons]
    by_cases ha : (a.id == i) = true
    · have hm : otpUnusedMatch u code p { a with is_used := true } = false := by
        simp [otpUnusedMatch]
      rw [if_pos ha, hm, ha]
      simp only [Bool.not_true, Bool.false_and, Bool.false_eq_true, if_false]
      exact ih
    · have ha2 : (a.id == i) = false := by simpa using ha
      rw [if_neg ha, ha2]
      simp only [Bool.not_false, Bool.true_and]
      cases hqa : otpUnusedMatch u code p a with
      | true =>
        simp only [hqa, if_true, ih]
      | false =>
        simp only [hqa, Bool.false_eq_true, if_false]
        exact ih

theorem filter_unused_eq_full (l : List OTPTokenRec) (u : Nat) (code : String)
    (p : OTPPurposeTag) :
    l.filter (otpUnusedMatch u code p)
      = (l.filter (otpFullMatch u code p)).filter (fun t => !t.is_used) := by
  rw [List.filter_filter]
  apply List.filter_congr
  intro x _
  have hb : ∀ (b1 b2 b3 b4 : Bool),
      (b1 && b2 && b3 && !b4) = (!b4 && (b1 && b2 && b3)) := by decide
  simpa [otpUnusedMatch, otpFullMatch] using
    hb (x.user == u) (x.token == code) (x.purpose == p) x.is_used

/-- Claim C6: on the unique active matching token, verify with
`consume = false` (`validate_only = true`) returns true and leaves the
state untouched, so a second validate-only call also returns true;
verify with `consume = true` returns true and marks that token used,
after which a second verify with the same code returns false in either
mode. -/
theorem verify_validate_then_consume (st : AuthState) (u : Nat) (code : String)
    (p : OTPPurposeTag) (t : OTPTokenRec)
    (hfind : st.otps.filter (otpUnusedMatch u code p) = [t])
    (hvalid : t.is_valid st.now = true) :
    verify_otp st u code p true = some (true, st) ∧
    (verify_otp st u code p true).bind (fun r => verify_otp r.2 u code p true)
      = some (true, st) ∧
    verify_otp st u code p false = some (true, markOtpUsed st t.id) ∧
    (∀ t2 ∈ (markOtpUsed st t.id).otps, t2.id = t.id → t2.is_used = true) ∧
    verify_otp (markOtpUsed st t.id) u code p true
      = some (false, markOtpUsed st t.id) ∧
    verify_otp (markOtpUsed st t.id) u code p false
      = some (false, markOtpUsed st t.id) := by
  have h1 : verify_otp st u code p true = some (true, st) := by
    unfold verify_otp
    rw [hfind]
    simp [hvalid]
  have hmarkfilter :
      (markOtpUsed st t.id).otps.filter (otpUnusedMatch u code p) = [] := by
    show (st.otps.map (fun a => if a.id == t.id then { a with is_used := true }
        else a)).filter (otpUnusedMatch u code p) = []
    rw [filter_mark, ← List.filter_filter, hfind]
    simp
  have h2 : ∀ b, verify_otp (markOtpUsed st t.id) u code p b
      = some (false, markOtpUsed st t.id) := by
    intro b
    unfold verify_otp
    rw [hmarkfilter]
  refine ⟨h1, ?_, ?_, ?_, h2 true, h2 false⟩
  · rw [h1]
    exact h1
  · unfold verify_otp
    rw [hfind]
    simp [hvalid]
  · intro t2 ht2 hid
    have ht2m : t2 ∈ st.otps.map (fun a =>
        if a.id == t.id then { a with is_used := true } else a) := ht2
    simp only [List.mem_map] at ht2m
    obtain ⟨a, ha, rfl⟩ := ht2m
    by_cases hai : (a.id == t.id) = true
    · simp [hai]
    · exfalso
      apply hai
      have ha2 : (a.id == t.id) = false := by simpa using hai
      rw [ha2] at hid
      simp at hid
      simp [hid]

/-- Witness for C6: the password-reset OTP of `resetScenarioState`,
validated non-destructively and then consumed. -/
theorem verify_validate_then_consume_witness :
    verify_otp resetScenarioState 1 "1234" OTPPurposeTag.password_reset true
      = some (true, resetScenarioState) ∧
    verify_otp resetScenarioState 1 "1234" OTPPurposeTag.password_reset false
      = some (true, markOtpUsed resetScenarioState 0) :=
  ⟨(verify_validate_then_consume resetScenarioState 1 "1234"
      OTPPurposeTag.password_reset
      ⟨0, 1, "1234", OTPPurposeTag.password_reset, false, 0, 10⟩
      (by decide) (by decide)).1,
   (verify_validate_then_consume resetScenarioState 1 "1234"
      OTPPurposeTag.password_reset
      ⟨0, 1, "1234", OTPPurposeTag.password_reset, false, 0, 10⟩
      (by decide) (by decide)).2.2.1⟩

/-- Claim C8: the three verification failure cases — no matching unused
token, the matching token already used, the matching token expired —
all return the boolean false with the state unchanged (the caught
`DoesNotExist` branch or the `is_valid` guard), never an exception, and
the three results are identical. -/
theorem verify_failure_uniform :
    (∀ (st : AuthState) (u : Nat) (code : String) (p : OTPPurposeTag)
        (vo : Bool),
      st.otps.filter (otpUnusedMatch u code p) = [] →
      verify_otp st u code p vo = some (false, st)) ∧
    (∀ (st : AuthState) (u : Nat) (code : String) (p : OTPPurposeTag)
        (vo : Bool) (t : OTPTokenRec),
      st.otps.filter (otpFullMatch u code p) = [t] → t.is_used = true →
      verify_otp st u code p vo = some (false, st)) ∧
    (∀ (st : AuthState) (u : Nat) (code : String) (p : OTPPurposeTag)
        (vo : Bool) (t : OTPTokenRec),
      st.otps.filter (otpUnusedMatch u code p) = [t] →
      t.is_expired st.now = true →
      verify_otp st u code p vo = some (false, st)) := by
  have hnone : ∀ (st : AuthState) (u : Nat) (code : String)
      (p : OTPPurposeTag) (vo : Bool),
      st.otps.filter (otpUnusedMatch u code p) = [] →
      verify_otp st u code p vo = some (false, st) := by
    intro st u code p vo h
    unfold verify_otp
    rw [h]
  refine ⟨hnone, ?_, ?_⟩
  · intro st u code p vo t hfull hused
    apply hnone
    rw [filter_unused_eq_full, hfull]
    simp [hused]
  · intro st u code p vo t hfind hexp
    unfold verify_otp
    rw [hfind]
    simp [OTPTokenRec.is_valid, hexp]

/-- Witness for C8: a wrong code against the empty database, the
already-consumed token of `resetConsumedState`, and the expired token of
`expiredOtpState` all yield the same `(false, unchanged-state)` result. -/
theorem verify_failure_uniform_witness :
    verify_otp emptyAuthState 1 "0000" OTPPurposeTag.password_reset true
      = some (false, emptyAuthState) ∧
    verify_otp resetConsumedState 1 "1234" OTPPurposeTag.password_reset true
      = some (false, resetConsumedState) ∧
    verify_otp expiredOtpState 1 "1234" OTPPurposeTag.password_reset true
      = some (false, expiredOtpState) :=
  ⟨verify_failure_uniform.1 emptyAuthState 1 "0000"
      OTPPurposeTag.password_reset true (by decide),
   verify_failure_uniform.2.1 resetConsumedState 1 "1234"
      OTPPurposeTag.password_reset true
      ⟨0, 1, "1234", OTPPurposeTag.password_reset, true, 0, 10⟩
      (by decide) (by decide),
   verify_failure_uniform.2.2 expiredOtpState 1 "1234"
      OTPPurposeTag.password_reset true
      ⟨0, 1, "1234", OTPPurposeTag.password_reset, false, 0, 10⟩
      (by decide) (by decide)⟩

/-- Claim C10: verifying an unused token whose expiry has passed
returns false in both modes — even with `consume = true` — and returns
the state unchanged, so the token's used-flag stays false. -/
theorem verify_expired_consume_no_side_effect (st : AuthState) (u : Nat)
    (code : String) (p : OTPPurposeTag) (t : OTPTokenRec)
    (hfind : st.otps.filter (otpUnusedMatch u code p) = [t])
    (hexp : t.is_expired st.now = true) :
    verify_otp st u code p true = some (false, st) ∧
    verify_otp st u code p false = some (false, st) ∧
    t.is_used = false := by
  have hmem : t ∈ st.otps.filter (otpUnusedMatch u code p) := by
    rw [hfind]
    exact List.mem_singleton.2 rfl
  have hpred := (List.mem_filter.1 hmem).2
  have hused : t.is_used = false := by
    simp [otpUnusedMatch] at hpred
    exact hpred.2
  have hver : ∀ vo, verify_otp st u code p vo = some (false, st) := by
    intro vo
    unfold verify_otp
    rw [hfind]
    simp [OTPTokenRec.is_valid, hexp]
  exact ⟨hver true, hver false, hused⟩

/-- Witness for C10: the expired unused token of `expiredOtpState`
survives a consuming verify attempt with its used-flag still false. -/
theorem verify_expired_consume_no_side_effect_witness :
    verify_otp expiredOtpState 1 "1234" OTPPurposeTag.password_reset false
      = some (false, expiredOtpState) ∧
    verify_otp expiredOtpState 1 "1234" OTPPurposeTag.password_reset true
      = some (false, expiredOtpState) :=
  ⟨(verify_expired_consume_no_side_effect expiredOtpState 1 "1234"
      OTPPurposeTag.password_reset
      ⟨0, 1, "1234", OTPPurposeTag.password_reset, false, 0, 10⟩
      (by decide) (by decide)).2.1,
   (verify_expired_consume_no_side_effect expiredOtpState 1 "1234"
      OTPPurposeTag.password_reset
      ⟨0, 1, "1234", OTPPurposeTag.password_reset, false, 0, 10⟩
      (by decide) (by decide)).1⟩

/-- Counterexample to C1 as stated: the OTP of `resetScenarioState` is
consumed (marked used) by the step-2 verify at minute 9, producing
`resetConsumedState`; at minute 15 — six minutes after the marking,
well inside the claim's 10-minute trust window — `reset_password`
nevertheless returns false and changes nothing, because the code
filters on `created_at` (minute 0, outside the window), not on the time
the token was marked used. -/
theorem reset_trust_window_counterexample :
    verify_otp resetScenarioState 1 "1234" OTPPurposeTag.password_reset false
      = some (true, resetConsumedState) ∧
    resetLateState = { resetConsumedState with now := 15 } ∧
    resetLateState.now - 10 ≤ 9 ∧
    reset_password resetLateState "alice@example.com" "newpass"
      = some (false, resetLateState) := by
  refine ⟨by decide, by decide, by decide, by decide⟩

/-- Claim C1, amended: `reset_password(email, newPassword)` succeeds if
and only if the email belongs to a user who has a used
password-reset-purpose OTP that was created within the last 10 minutes
(the code checks `created_at`, not the time the token was marked used);
on success it changes that user's password and leaves no unused
password-reset OTPs for the user. -/
theorem reset_step3_semantics (st : AuthState) (email pw : String)
    (hu : (usersWithEmail st email).length ≤ 1) :
    ∃ r, reset_password st email pw = some r ∧
      (r.1 = true ↔ ∃ u, usersWithEmail st email = [u] ∧
        recentUsedResetOtp st u.id = true) ∧
      (∀ u, usersWithEmail st email = [u] → r.1 = true →
        (∀ v ∈ r.2.users, v.id = u.id → v.password = pw) ∧
        (∀ t ∈ r.2.otps, t.user = u.id →
          t.purpose = OTPPurposeTag.password_reset → t.is_used = true)) := by
  unfold reset_password get_user_by_email
  cases husers : usersWithEmail st email with
  | nil =>
    refine ⟨(false, st), rfl, ?_, ?_⟩
    · simp
    · intro u hu2
      simp at hu2
  | cons u rest =>
    cases rest with
    | nil =>
      cases hrec : recentUsedResetOtp st u.id with
      | true =>
        refine ⟨(true, { change_password st u.id pw with
            otps := List.map (fun t =>
              if t.user == u.id && t.purpose == OTPPurposeTag.password_reset
              then { t with is_used := true } else t)
              (change_password st u.id pw).otps }), ?_, ?_, ?_⟩
        · simp [hrec]
        · simp [hrec]
        · intro u2 hu2 _
          have hu2e : u2 = u := by
            have := List.cons.inj hu2
            exact this.1.symm
          subst hu2e
          constructor
          · intro v hv hvid
            simp only [change_password, List.mem_map] at hv
            obtain ⟨b, hb, rfl⟩ := hv
            by_cases hbid : (b.id == u2.id) = true
            · simp [hbid]
            · exfalso
              apply hbid
              have hb2 : (b.id == u2.id) = false := by simpa using hbid
              rw [hb2] at hvid
              simp at hvid
              simp [hvid]
          · intro t ht htu htp
            simp only [change_password, List.mem_map] at ht
            obtain ⟨b, hb, rfl⟩ := ht
            by_cases hbc : (b.user == u2.id &&
                (b.purpose == OTPPurposeTag.password_reset)) = true
            · simp [hbc]
            · exfalso
              apply hbc
              have hb2 : (b.user == u2.id &&
                  (b.purpose == OTPPurposeTag.password_reset)) = false := by
                simpa using hbc
              rw [hb2] at htu htp
              simp at htu htp
              simp [htu, htp]
      | false =>
        refine ⟨(false, st), ?_, ?_, ?_⟩
        · simp only [hrec, Bool.false_eq_true, if_false]
        · constructor
          · intro hcon
            cases hcon
          · rintro ⟨u2, hu2, hr2⟩
            have hu2e : u2 = u := ((List.cons.inj hu2).1).symm
            rw [hu2e] at hr2
            rw [hrec] at hr2
            cases hr2
        · intro u2 hu2 hfalse
          cases hfalse
    | cons u2 rest2 =>
      exfalso
      rw [husers] at hu
      simp at hu

/-- Witness for C1 (amended): in `resetRecentState` the used OTP was
created one minute ago, so the reset succeeds. -/
theorem reset_step3_semantics_witness :
    ∃ r, reset_password resetRecentState "alice@example.com" "newpass"
        = some r ∧
      (r.1 = true ↔ ∃ u, usersWithEmail resetRecentState "alice@example.com"
          = [u] ∧ recentUsedResetOtp resetRecentState u.id = true) ∧
      (∀ u, usersWithEmail resetRecentState "alice@example.com" = [u] →
        r.1 = true →
        (∀ v ∈ r.2.users, v.id = u.id → v.password = "newpass") ∧
        (∀ t ∈ r.2.otps, t.user = u.id →
          t.purpose = OTPPurposeTag.password_reset → t.is_used = true)) :=
  reset_step3_semantics resetRecentState "alice@example.com" "newpass"
    (by decide)

/-- Claim C7 at the failing input: for the unknown email the service
returns False and the view answers HTTP 500 with an error body, while
the known email gets HTTP 200 — the two responses are distinguishable,
contradicting the claimed success-shaped response regardless (and the
view's own OpenAPI annotation, which documents a uniform
"If an account exists with this email..." reply). -/
theorem forgot_password_response_leaks_existence :
    request_password_reset_otp forgotScenarioState "bob@example.com" "1111"
      = some (false, forgotScenarioState) ∧
    (forgotPasswordRequestPost forgotScenarioState "bob@example.com" "1111").1
      = (500, "Failed to send password reset OTP. Please try again later.") ∧
    (forgotPasswordRequestPost forgotScenarioState "alice@example.com" "1111").1.1
      = 200 := by
  refine ⟨by decide, by decide, by decide⟩
